import Mathlib

/-!
Verification of the job-orchestration and resilience layer of the
ai-thailand-hackathon-2025 services, as a shallow embedding in Lean 4.

Embedded modules:
* `src/ai-services/shared/error_handling.py`
  (`CircuitBreaker`, `handle_exceptions`, `ErrorTracker.get_error_statistics`,
   `get_system_health`)
* `src/ai-services/shared/performance_monitor.py`
  (`PerformanceMonitor.get_performance_summary`, `BatchProcessor`)
* `src/ai-services/queue-worker/enhanced_queue.py`
  (`EnhancedQueue.update_task_status`)

Modelling conventions: wall-clock instants (`time.time()`) are `Int` seconds;
percentage/latency values are exact rationals (`Rat`).  Python's
`round(x, 2)` applied to floats for display is not modelled (float
formatting); every statistic is kept as the exact rational the formula
produces, and every concrete value appearing in a theorem is exact at two
decimals, so the display rounding is the identity there.  Logging calls are
side effects with no bearing on the properties and are dropped.
-/

/-! ## Circuit breaker (`error_handling.py`, class `CircuitBreaker`) -/

/-- The three states of `CircuitBreaker.state` ("CLOSED", "OPEN",
"HALF_OPEN"). -/
inductive BState where
  | CLOSED
  | OPEN
  | HALF_OPEN
  deriving DecidableEq, Repr

/-- State of a `CircuitBreaker` instance: configuration
(`failure_threshold`, `timeout_seconds`) plus the mutable fields
(`failure_count`, `last_failure_time`, `state`). -/
structure CircuitBreaker where
  failure_threshold : Nat
  timeout_seconds : Int
  failure_count : Nat
  last_failure_time : Int
  state : BState
  deriving DecidableEq, Repr

/-- Constructor `CircuitBreaker.__init__`: counters at zero, state "CLOSED",
`last_failure_time = 0`. -/
def CircuitBreaker.mk0 (failure_threshold : Nat) (timeout_seconds : Int) :
    CircuitBreaker :=
  { failure_threshold := failure_threshold
    timeout_seconds := timeout_seconds
    failure_count := 0
    last_failure_time := 0
    state := BState.CLOSED }

/-- Observable outcome of one `CircuitBreaker.call`: the wrapped function
returned normally, the wrapped function raised, or the breaker failed fast
with the "Circuit breaker is OPEN" exception. -/
inductive CallOutcome where
  | success
  | fnFailure
  | circuitOpen
  deriving DecidableEq, Repr

/-- Method `CircuitBreaker.call(func, ...)`.  `now` is the value `time.time()`
returns during the call; `fnSucceeds` tells whether `func` returns normally
(true) or raises (false).  Result: the breaker state after the call, the
outcome the caller sees, and whether `func` was actually invoked. -/
def CircuitBreaker.call (cb : CircuitBreaker) (now : Int) (fnSucceeds : Bool) :
    CircuitBreaker × CallOutcome × Bool :=
  -- `if self.state == "OPEN": ...` prologue
  let cb1 :=
    if cb.state = BState.OPEN ∧ now - cb.last_failure_time > cb.timeout_seconds
    then { cb with state := BState.HALF_OPEN }
    else cb
  if cb1.state = BState.OPEN then
    -- `raise Exception("Circuit breaker is OPEN - service unavailable")`
    (cb1, CallOutcome.circuitOpen, false)
  else if fnSucceeds then
    -- success path: HALF_OPEN closes, failure count resets
    let cb2 :=
      if cb1.state = BState.HALF_OPEN then { cb1 with state := BState.CLOSED }
      else cb1
    ({ cb2 with failure_count := 0 }, CallOutcome.success, true)
  else
    -- failure path: count up, stamp the failure, open at the threshold
    let fc := cb1.failure_count + 1
    let cb2 := { cb1 with failure_count := fc, last_failure_time := now }
    let cb3 :=
      if cb2.failure_count ≥ cb2.failure_threshold
      then { cb2 with state := BState.OPEN }
      else cb2
    (cb3, CallOutcome.fnFailure, true)

/-- Run a sequence of calls that all fail (the wrapped function raises each
time), at the given sequence of clock readings, returning the final breaker
state. -/
def CircuitBreaker.failCalls (cb : CircuitBreaker) (times : List Int) :
    CircuitBreaker :=
  times.foldl (fun c t => (c.call t false).1) cb

/-! ## Retry / backoff executor (`error_handling.py`, `handle_exceptions`)

`handle_exceptions(category, severity, retry_attempts, recovery_func)`
produces a wrapper around `func`.  We embed the retry loop shared by
`sync_wrapper` and `async_wrapper`: attempt `func`; on an exception record
the error with the tracker, and while `attempt <= retry_attempts` wait
`min(2 ** (attempt - 1), 30)` seconds and retry; once the loop exits,
re-raise the last error.  (`async_wrapper` additionally invokes the
best-effort `recovery_func` between attempts; its own failures are swallowed
and it changes nothing observable here, so it is not modelled.)

`fn attempt` gives the behaviour of `func` on its (0-based) `attempt`-th
invocation: `Except.ok a` for a normal return, `Except.error e` for a raise. -/

/-- Everything observable about one run of the wrapped function: the value
returned or exception re-raised, how many times `func` was invoked, the
errors recorded with the `ErrorTracker` (in order, one per failed attempt),
and the sleeps performed between attempts (in seconds, in order). -/
structure RetryRun (E A : Type) where
  result : Except E A
  fnCalls : Nat
  recorded : List E
  waits : List Nat
  deriving Repr

/-- The `while attempt <= retry_attempts` loop of the wrappers.  `attempt`
is the current value of the 0-based attempt counter at loop entry; `left` is
`retry_attempts - attempt`, the number of retries the guard still allows
(the source retries after a failure iff the incremented counter satisfies
`attempt <= retry_attempts`, i.e. iff `left > 0`).  After a failure the
incremented counter is `attempt + 1`, so the recorded wait
`min(2 ** (attempt - 1), 30)` (with the incremented counter) is
`min(2 ** attempt, 30)` in terms of the entry value. -/
def retryLoop (fn : Nat → Except E A) (attempt left : Nat) : RetryRun E A :=
  match fn attempt, left with
    | Except.ok a, _ =>
      -- `return func(...)`: no error recorded, no wait
      ⟨Except.ok a, 1, [], []⟩
    | Except.error e, 0 =>
      -- error recorded, guard now false: `raise last_error`
      ⟨Except.error e, 1, [e], []⟩
    | Except.error e, left_minus1 + 1 =>
      -- error recorded, wait, loop again
      let w := min (2 ^ attempt) 30
      let rest := retryLoop fn (attempt + 1) left_minus1
      ⟨rest.result, rest.fnCalls + 1, e :: rest.recorded, w :: rest.waits⟩

/-- One full run of the wrapper produced by
`handle_exceptions(..., retry_attempts=retry_attempts)`: the loop starts at
`attempt = 0` with the full retry budget left. -/
def handle_exceptions_run (fn : Nat → Except E A) (retry_attempts : Nat) :
    RetryRun E A :=
  retryLoop fn 0 retry_attempts

/-! ## Error tracker (`error_handling.py`, class `ErrorTracker`) -/

/-- Enum `ErrorSeverity`. -/
inductive ErrorSeverity where
  | LOW
  | MEDIUM
  | HIGH
  | CRITICAL
  deriving DecidableEq, Repr

/-- Enum `ErrorCategory`. -/
inductive ErrorCategory where
  | MODEL_ERROR
  | PROCESSING_ERROR
  | VALIDATION_ERROR
  | RESOURCE_ERROR
  | NETWORK_ERROR
  | SYSTEM_ERROR
  deriving DecidableEq, Repr

/-- Dataclass `ErrorRecord`, restricted to the fields `get_error_statistics` and
`get_system_health` read.  The source stores `timestamp` as a
`"%Y-%m-%d %H:%M:%S"` string and re-parses it with `strptime`; we keep the
instant it denotes, as `Int` seconds (second resolution, like the format).
`message`, `traceback`, `context` and the recovery flags are carried opaquely
or dropped; no statistic reads them. -/
structure ErrorRecord where
  timestamp : Int
  error_id : String
  category : ErrorCategory
  severity : ErrorSeverity
  message : String
  deriving DecidableEq, Repr

/-- The dictionary `ErrorTracker.get_error_statistics(hours)` returns.
`most_common_errors` comes from the cumulative `error_counts` map, which no
claim touches, and is not modelled.  `error_rate_per_hour` is kept exact;
the source displays `round(error_rate, 2)` (float formatting, see the module
comment). -/
structure ErrorStatistics where
  time_period_hours : Nat
  total_errors : Nat
  error_rate_per_hour : Rat
  by_category : ErrorCategory → Nat
  by_severity : ErrorSeverity → Nat

/-- Method `ErrorTracker.get_error_statistics(hours)` evaluated when
`datetime.now()` reads `now` (seconds) over the records currently in
`self.error_records`.  `cutoff_time = now - timedelta(hours=hours)`; a record
passes the filter iff its parsed timestamp is `>= cutoff_time`. -/
def get_error_statistics (records : List ErrorRecord) (now : Int)
    (hours : Nat) : ErrorStatistics :=
  let cutoff_time : Int := now - (hours : Int) * 3600
  let recent_errors := records.filter (fun r => cutoff_time ≤ r.timestamp)
  { time_period_hours := hours
    total_errors := recent_errors.length
    error_rate_per_hour := (recent_errors.length : Rat) / (max hours 1 : Nat)
    by_category := fun c => (recent_errors.filter (fun r => r.category = c)).length
    by_severity := fun s => (recent_errors.filter (fun r => r.severity = s)).length }

/-- Function `get_system_health()` evaluated at clock reading `now` over the global
tracker's records: statistics over the last hour, then
`"degraded"` when `total_errors > 10`, overridden by `"unhealthy"` when any
`critical`-severity record is in the window.  Only the `status` field is
modelled; the rest of the returned dict repeats `error_stats` and a
timestamp. -/
def get_system_health (records : List ErrorRecord) (now : Int) : String :=
  let error_stats := get_error_statistics records now 1
  let health1 := if error_stats.total_errors > 10 then "degraded" else "healthy"
  if error_stats.by_severity ErrorSeverity.CRITICAL > 0 then "unhealthy"
  else health1

/-! ## Performance monitor (`performance_monitor.py`, class
`PerformanceMonitor`) -/

/-- Dataclass `PerformanceMetrics`.  `timestamp` is `time.time()` in `Int`
seconds; percentages and milliseconds are exact rationals. -/
structure PerformanceMetrics where
  timestamp : Int
  cpu_percent : Rat
  memory_percent : Rat
  gpu_memory_mb : Option Rat
  gpu_utilization : Option Rat
  inference_time_ms : Rat
  queue_size : Nat
  active_tasks : Nat
  deriving DecidableEq, Repr

/-- Arithmetic mean of a list of rationals (`np.mean`); the source never
applies it to an empty list without guarding first. -/
def listMean (xs : List Rat) : Rat := xs.sum / (xs.length : Rat)

/-- Maximum of a list of rationals (`np.max`); 0 on the empty list, which
the source guards against. -/
def listMax : List Rat → Rat
  | [] => 0
  | x :: xs => xs.foldl max x

/-- Minimum of a list of rationals (`np.min`); 0 on the empty list, which
the source guards against. -/
def listMin : List Rat → Rat
  | [] => 0
  | x :: xs => xs.foldl min x

/-- Insert into a sorted list (ascending). -/
def insertSorted (x : Rat) : List Rat → List Rat
  | [] => [x]
  | y :: ys => if x ≤ y then x :: y :: ys else y :: insertSorted x ys

/-- Insertion sort, ascending (the sort `np.percentile` performs
internally). -/
def sortAsc (xs : List Rat) : List Rat := xs.foldr insertSorted []

/-- Computation `np.percentile(xs, p)` with the default linear interpolation: with the
values sorted ascending as `v_0 … v_(n-1)`, the virtual rank is
`r = (p/100)·(n-1)` and the result is
`v_⌊r⌋ + (r - ⌊r⌋)·(v_⌊r⌋₊₁ - v_⌊r⌋)`.  0 on the empty list, which the
source guards against. -/
def npPercentile (xs : List Rat) (p : Rat) : Rat :=
  let sorted := sortAsc xs
  if sorted.isEmpty then 0
  else
    let n := sorted.length
    let rank : Rat := p / 100 * ((n : Rat) - 1)
    let lo : Nat := rank.floor.toNat
    let hi : Nat := min (lo + 1) (n - 1)
    let vlo := sorted.getD lo 0
    let vhi := sorted.getD hi 0
    vlo + (rank - (lo : Rat)) * (vhi - vlo)

/-- The `"inference"` sub-dictionary of the performance summary. -/
structure InferenceStats where
  avg_ms : Rat
  max_ms : Rat
  min_ms : Rat
  p95_ms : Rat
  deriving DecidableEq, Repr

/-- The dictionary `get_performance_summary` returns on the non-empty path,
restricted to the fields a claim reads plus the sibling statistics computed
the same way.  The `"gpu"` block and the `"health"` flags are derived
presentation over the same filtered samples and are not modelled; exact
rationals stand for the `round(…, 2)` float displays (see the module
comment). -/
structure PerfSummary where
  time_window_minutes : Nat
  sample_count : Nat
  cpu_avg : Rat
  cpu_max : Rat
  cpu_min : Rat
  memory_avg : Rat
  memory_max : Rat
  memory_min : Rat
  inference : InferenceStats
  deriving DecidableEq, Repr

/-- Method `PerformanceMonitor.get_performance_summary(window_minutes)` evaluated
when `time.time()` reads `now`, over the samples currently in
`self.metrics_history`.  `cutoff_time = now - window_minutes * 60`; a sample
is recent iff `m.timestamp >= cutoff_time`.  Returns `none` on the
`{"error": "No recent metrics available"}` path.  Inference statistics are
computed over the recent samples with `inference_time_ms > 0` only, and are
all 0 when that sub-list is empty. -/
def get_performance_summary (metrics_history : List PerformanceMetrics)
    (now : Int) (window_minutes : Nat) : Option PerfSummary :=
  let cutoff_time : Int := now - (window_minutes : Int) * 60
  let recent_metrics := metrics_history.filter
    (fun m => cutoff_time ≤ m.timestamp)
  if recent_metrics.isEmpty then none
  else
    let cpu_values := recent_metrics.map (fun m => m.cpu_percent)
    let memory_values := recent_metrics.map (fun m => m.memory_percent)
    let inference_values :=
      (recent_metrics.filter (fun m => 0 < m.inference_time_ms)).map
        (fun m => m.inference_time_ms)
    some
      { time_window_minutes := window_minutes
        sample_count := recent_metrics.length
        cpu_avg := listMean cpu_values
        cpu_max := listMax cpu_values
        cpu_min := listMin cpu_values
        memory_avg := listMean memory_values
        memory_max := listMax memory_values
        memory_min := listMin memory_values
        inference :=
          { avg_ms := if inference_values.isEmpty then 0
              else listMean inference_values
            max_ms := if inference_values.isEmpty then 0
              else listMax inference_values
            min_ms := if inference_values.isEmpty then 0
              else listMin inference_values
            p95_ms := if inference_values.isEmpty then 0
              else npPercentile inference_values 95 } }

/-! ## Batch accumulator (`performance_monitor.py`, class `BatchProcessor`)

`process_batch` runs entirely under `self.processing_lock`, so concurrent
submissions serialize; we model one locked section as one step. -/

/-- State of a `BatchProcessor`: configuration plus `self.pending_requests`. -/
structure BatchProcessor (α : Type) where
  max_batch_size : Nat
  timeout_seconds : Rat
  pending_requests : List α
  deriving DecidableEq, Repr

/-- Method `BatchProcessor._should_process_timeout()`.  The source comments:
"Implementation would need timestamp tracking / Simplified for this
example" — it ignores ages entirely and reports true whenever the pending
list is non-empty. -/
def BatchProcessor.should_process_timeout0 (bp : BatchProcessor α) : Bool :=
  if bp.pending_requests.isEmpty then false
  else bp.pending_requests.length > 0

/-- One `process_batch(request_data, process_func)` invocation (one locked
section): append the request, then flush iff the pending list reached
`max_batch_size` or `_should_process_timeout()` holds.  Returns the new
state and `some batch` when the batch was handed to `process_func` during
this call (`none` = "Added to batch, will be processed later"). -/
def BatchProcessor.process_batch (bp : BatchProcessor α) (request_data : α) :
    BatchProcessor α × Option (List α) :=
  let bp1 := { bp with pending_requests := bp.pending_requests ++ [request_data] }
  if bp1.pending_requests.length ≥ bp1.max_batch_size
      ∨ bp1.should_process_timeout0 then
    ({ bp1 with pending_requests := [] }, some bp1.pending_requests)
  else
    (bp1, none)

/-! ## Status store (`enhanced_queue.py`, class `EnhancedQueue`) -/

/-- Enum `TaskStatus`. -/
inductive TaskStatus where
  | PENDING
  | STARTED
  | PROCESSING
  | SUCCESS
  | FAILURE
  | RETRY
  deriving DecidableEq, Repr

/-- The hash stored at `task:{task_id}:status`, restricted to the fields the
ordering claim reads: `"status"` and `"updated_at"` (an `Int`-seconds clock
reading).  The extra per-hook `metadata` keys and the 1-hour TTL do not
interact with it. -/
structure StoredStatus where
  status : TaskStatus
  updated_at : Int
  deriving DecidableEq, Repr

/-- The Redis keyspace as seen through `task:{task_id}:status` hashes. -/
def StatusStore : Type := String → Option StoredStatus

/-- The key `f"task:{task_id}:status"`. -/
def taskKey (task_id : String) : String := "task:" ++ task_id ++ ":status"

/-- Method `EnhancedQueue.update_task_status(task_id, status, metadata)` evaluated
when `time.time()` reads `now`: `hset` writes
`{"status": status.value, "updated_at": time.time(), **metadata}`
unconditionally — the stored hash is replaced whatever it held before. -/
def update_task_status (store : StatusStore) (task_id : String)
    (status : TaskStatus) (now : Int) : StatusStore :=
  fun k => if k = taskKey task_id then some ⟨status, now⟩ else store k

/-- A sequence of `update_task_status` calls for one task, oldest first,
each given as (status, clock reading at the call). -/
def applyStatusUpdates (store : StatusStore) (task_id : String)
    (updates : List (TaskStatus × Int)) : StatusStore :=
  updates.foldl (fun s u => update_task_status s task_id u.1 u.2) store

/-! ## Definitions taken from the spec's words, for comparison

These two are NOT translations of the source; they restate what the spec
asserts, so that a refutation can exhibit the source and the spec
disagreeing on one input. -/

/-- The record count the spec describes for `get_error_statistics`: "counts
exactly the records whose timestamp lies inside `[now - window, now]`" —
with an upper bound at `now`. -/
def specWindowCount (records : List ErrorRecord) (now : Int) (hours : Nat) :
    Nat :=
  (records.filter
    (fun r => now - (hours : Int) * 3600 ≤ r.timestamp ∧ r.timestamp ≤ now)).length

/-- The stored `updated_at` evolution the spec describes for the status
store: an update is written only when its `updated_at` is strictly newer
than the stored one, otherwise dropped. -/
def specDropStaleUpdate (store : StatusStore) (task_id : String)
    (status : TaskStatus) (now : Int) : StatusStore :=
  match store (taskKey task_id) with
  | some old =>
    if old.updated_at < now
    then update_task_status store task_id status now
    else store
  | none => update_task_status store task_id status now

/-! ## Theorems

Helper lemmas first, then one theorem per claim (with a witness or
counterexample where required). -/

/-- Stepping lemma: a call through a CLOSED breaker whose wrapped function
raises increments the failure count, stamps `last_failure_time`, and opens
the breaker exactly when the count reaches the threshold. -/
theorem call_closed_fail (cb : CircuitBreaker) (t : Int)
    (h : cb.state = BState.CLOSED) :
    (cb.call t false).1 =
      if cb.failure_count + 1 ≥ cb.failure_threshold then
        { cb with failure_count := cb.failure_count + 1,
                  last_failure_time := t, state := BState.OPEN }
      else
        { cb with failure_count := cb.failure_count + 1,
                  last_failure_time := t } := by
  simp [CircuitBreaker.call, h]

/-- Invariant lemma: from a CLOSED breaker, a run of consecutive failing
calls whose length brings the failure count exactly to the threshold ends
with the breaker OPEN. -/
theorem failCalls_opens (times : List Int) :
    ∀ cb : CircuitBreaker, cb.state = BState.CLOSED →
      cb.failure_count + times.length = cb.failure_threshold →
      times ≠ [] →
      (cb.failCalls times).state = BState.OPEN := by
  induction times with
  | nil => intro cb _ _ hne; exact absurd rfl hne
  | cons t ts ih =>
    intro cb hclosed hcount _
    have hstep := call_closed_fail cb t hclosed
    have hfold : cb.failCalls (t :: ts) = ((cb.call t false).1).failCalls ts := by
      simp [CircuitBreaker.failCalls]
    rw [hfold, hstep]
    rcases ts with _ | ⟨t2, ts2⟩
    · have : cb.failure_count + 1 ≥ cb.failure_threshold := by
        simp at hcount; omega
      simp [this, CircuitBreaker.failCalls]
    · have hlt : ¬ (cb.failure_count + 1 ≥ cb.failure_threshold) := by
        simp at hcount; omega
      rw [if_neg hlt]
      apply ih
      · exact hclosed
      · simp at hcount ⊢; omega
      · simp

/-- Fail-fast lemma: a call made while the breaker is OPEN and within the
timeout raises the circuit-open error, leaves the breaker unchanged, and
never invokes the wrapped function. -/
theorem call_open_within_timeout (cb : CircuitBreaker) (now : Int) (b : Bool)
    (hopen : cb.state = BState.OPEN)
    (hrecent : now - cb.last_failure_time ≤ cb.timeout_seconds) :
    cb.call now b = (cb, CallOutcome.circuitOpen, false) := by
  have : ¬ (now - cb.last_failure_time > cb.timeout_seconds) := by omega
  simp [CircuitBreaker.call, hopen, this]

/-- C1: for every sequence of `CircuitBreaker.call` invocations starting in
CLOSED (a freshly constructed breaker with threshold at least 1),
`failure_threshold` consecutive failing calls leave the breaker OPEN; and
every call made while the state is OPEN with
`now - last_failure_time <= timeout_seconds` raises the circuit-open error
without invoking the wrapped function (the `false` component witnesses that
`fn` was not called, and the returned breaker is unchanged). -/
theorem circuitBreaker_opens_then_fails_fast :
    (∀ (threshold : Nat) (timeout : Int) (times : List Int),
        1 ≤ threshold → times.length = threshold →
        ((CircuitBreaker.mk0 threshold timeout).failCalls times).state
          = BState.OPEN) ∧
    (∀ (cb : CircuitBreaker) (now : Int) (fnSucceeds : Bool),
        cb.state = BState.OPEN →
        now - cb.last_failure_time ≤ cb.timeout_seconds →
        cb.call now fnSucceeds = (cb, CallOutcome.circuitOpen, false)) := by
  constructor
  · intro threshold timeout times hpos hlen
    apply failCalls_opens
    · rfl
    · simpa [CircuitBreaker.mk0] using hlen
    · intro hnil; subst hnil; simp at hlen; omega
  · exact call_open_within_timeout

/-- Witness for C1: a fresh breaker with threshold 2 opens after the two
failing calls at times 5 and 9, and an OPEN breaker 21 seconds after its
last failure (timeout 60) fails fast without invoking the function. -/
theorem circuitBreaker_opens_then_fails_fast_witness :
    ((CircuitBreaker.mk0 2 60).failCalls [5, 9]).state = BState.OPEN ∧
    CircuitBreaker.call ⟨2, 60, 2, 9, BState.OPEN⟩ 30 true
      = (⟨2, 60, 2, 9, BState.OPEN⟩, CallOutcome.circuitOpen, false) :=
  ⟨circuitBreaker_opens_then_fails_fast.1 2 60 [5, 9] (by decide) (by decide),
   circuitBreaker_opens_then_fails_fast.2 ⟨2, 60, 2, 9, BState.OPEN⟩ 30 true
     (by decide) (by decide)⟩

/-- C5: with `failure_threshold=3, timeout_seconds=60`, three failing calls
(at times 0, 1, 2) leave the breaker OPEN with `last_failure_time = 2`; a
call at time 63 (61 seconds after the last failure, hence `> 60`) is
permitted through as a trial call — the `true` in the third component shows
the wrapped function was invoked, which from an OPEN pre-state happens only
via the HALF_OPEN transition.  If the trial succeeds the breaker is CLOSED
with `failure_count = 0`; if it fails the breaker is OPEN again with
`last_failure_time = 63`, the time of that failure. -/
theorem circuitBreaker_halfOpen_trial_scenario :
    (CircuitBreaker.mk0 3 60).failCalls [0, 1, 2] = ⟨3, 60, 3, 2, BState.OPEN⟩ ∧
    (((CircuitBreaker.mk0 3 60).failCalls [0, 1, 2]).call 63 true)
      = (⟨3, 60, 0, 2, BState.CLOSED⟩, CallOutcome.success, true) ∧
    (((CircuitBreaker.mk0 3 60).failCalls [0, 1, 2]).call 63 false)
      = (⟨3, 60, 4, 63, BState.OPEN⟩, CallOutcome.fnFailure, true) := by
  decide

/-- C2: wrapping an always-raising function with `retry_attempts = 2`
(the scenario's `max_retries=2`) invokes the function exactly 3 times,
records exactly one error-tracker entry per failed attempt (three entries,
in attempt order, and trivially none for a successful attempt since none
occurs), performs backoff waits of 1 and 2 seconds between attempts, and
finally re-raises the last error (`err 2`) to the caller. -/
theorem retry_exhausts_three_attempts {E A : Type} (err : Nat → E)
    (fn : Nat → Except E A) (hfail : ∀ k, fn k = Except.error (err k)) :
    handle_exceptions_run fn 2
      = ⟨Except.error (err 2), 3, [err 0, err 1, err 2], [1, 2]⟩ := by
  simp [handle_exceptions_run, retryLoop, hfail]

/-- Witness for C2: the function that raises `k` on its `k`-th invocation,
run with `retry_attempts = 2`. -/
theorem retry_exhausts_three_attempts_witness :
    handle_exceptions_run (fun k => (Except.error k : Except Nat Unit)) 2
      = ⟨Except.error 2, 3, [0, 1, 2], [1, 2]⟩ :=
  retry_exhausts_three_attempts (fun k => k) _ (fun _ => rfl)

/-- Unfolding lemma for `retryLoop` when the wrapped function returns
normally on the current attempt. -/
theorem retryLoop_of_ok {E A : Type} (fn : Nat → Except E A)
    (attempt left : Nat) (a : A) (h : fn attempt = Except.ok a) :
    retryLoop fn attempt left = ⟨Except.ok a, 1, [], []⟩ := by
  rw [retryLoop.eq_def, h]

/-- Unfolding lemma for `retryLoop` when the wrapped function raises and no
retries remain. -/
theorem retryLoop_of_error_zero {E A : Type} (fn : Nat → Except E A)
    (attempt : Nat) (e : E) (h : fn attempt = Except.error e) :
    retryLoop fn attempt 0 = ⟨Except.error e, 1, [e], []⟩ := by
  rw [retryLoop.eq_def, h]

/-- Unfolding lemma for `retryLoop` when the wrapped function raises and a
retry remains: the wait `min(2 ** attempt, 30)` is prepended. -/
theorem retryLoop_of_error_succ {E A : Type} (fn : Nat → Except E A)
    (attempt l : Nat) (e : E) (h : fn attempt = Except.error e) :
    retryLoop fn attempt (l + 1) =
      ⟨(retryLoop fn (attempt + 1) l).result,
       (retryLoop fn (attempt + 1) l).fnCalls + 1,
       e :: (retryLoop fn (attempt + 1) l).recorded,
       min (2 ^ attempt) 30 :: (retryLoop fn (attempt + 1) l).waits⟩ := by
  rw [retryLoop.eq_def, h]

/-- Schedule lemma: the `j`-th wait performed by `retryLoop` entered at a
given attempt counter is `min(2 ** (attempt + j), 30)`, whatever the wrapped
function does. -/
theorem retryLoop_waits_schedule {E A : Type} (fn : Nat → Except E A) :
    ∀ (left attempt j : Nat), j < (retryLoop fn attempt left).waits.length →
      (retryLoop fn attempt left).waits.getD j 0 = min (2 ^ (attempt + j)) 30 := by
  intro left
  induction left with
  | zero =>
    intro attempt j hj
    rcases hfn : fn attempt with e | a
    · rw [retryLoop_of_error_zero fn attempt e hfn] at hj
      simp at hj
    · rw [retryLoop_of_ok fn attempt 0 a hfn] at hj
      simp at hj
  | succ l ih =>
    intro attempt j hj
    rcases hfn : fn attempt with e | a
    · rw [retryLoop_of_error_succ fn attempt l e hfn] at hj ⊢
      rcases j with _ | j
      · simp
      · simp only [List.getD_cons_succ]
        have hj2 : j < (retryLoop fn (attempt + 1) l).waits.length := by
          simpa using hj
        rw [ih (attempt + 1) j hj2]
        ring_nf
    · rw [retryLoop_of_ok fn attempt (l + 1) a hfn] at hj
      simp at hj

/-- C8: in any run of the retry wrapper, the wait inserted after the `i`-th
recorded failure (0-based; the claim's 1-based attempt number is `k = i+1`)
is `min(2 ** i, 30) = min(2 ** (k-1), 30)` seconds — exponential backoff
with a fixed 30-second ceiling.  Waits exist exactly for failed attempts
with retries remaining. -/
theorem retry_backoff_capped_exponential {E A : Type} (fn : Nat → Except E A)
    (retry_attempts i : Nat)
    (h : i < (handle_exceptions_run fn retry_attempts).waits.length) :
    (handle_exceptions_run fn retry_attempts).waits.getD i 0
      = min (2 ^ i) 30 := by
  have := retryLoop_waits_schedule fn retry_attempts 0 i h
  simpa using this

/-- Witness for C8: an always-failing run with `retry_attempts = 6` has a
6th wait (index 5) of `min(2 ** 5, 30) = 30` seconds — the ceiling. -/
theorem retry_backoff_capped_exponential_witness :
    (5 < (handle_exceptions_run
            (fun k => (Except.error k : Except Nat Unit)) 6).waits.length) ∧
    (handle_exceptions_run
        (fun k => (Except.error k : Except Nat Unit)) 6).waits.getD 5 0
      = min (2 ^ 5) 30 :=
  ⟨by decide,
   retry_backoff_capped_exponential (fun k => Except.error k) 6 5 (by decide)⟩

/-- C3 (the code contradicts the claimed flush condition): because
`_should_process_timeout` ignores request ages and holds whenever the
pending list is non-empty, a `BatchProcessor` with `max_batch_size = 4`
flushes on every single submission.  Submitting requests 1, 2, 3, 4
sequentially from the fresh state produces four downstream calls of one
item each — never one call carrying all four, and never a flush gated on
`len(pending) >= max_batch_size` or the oldest pending age. -/
theorem batch_flushes_singleton_every_submission :
    BatchProcessor.process_batch ⟨4, 2, []⟩ (1 : Nat) = (⟨4, 2, []⟩, some [1]) ∧
    BatchProcessor.process_batch ⟨4, 2, []⟩ (2 : Nat) = (⟨4, 2, []⟩, some [2]) ∧
    BatchProcessor.process_batch ⟨4, 2, []⟩ (3 : Nat) = (⟨4, 2, []⟩, some [3]) ∧
    BatchProcessor.process_batch ⟨4, 2, []⟩ (4 : Nat) = (⟨4, 2, []⟩, some [4]) := by
  decide

/-- Counterexample for C4: `update_task_status` performs no timestamp
comparison.  After a write with `updated_at = 100`, a second write whose
clock reading is 50 is stored rather than dropped, so the stored
`updated_at` decreases from 100 to 50; the drop-stale behaviour the spec
describes (`specDropStaleUpdate`) would instead have kept the first
record. -/
theorem update_task_status_overwrites_stale :
    update_task_status
        (update_task_status (fun _ => none) "job1" TaskStatus.STARTED 100)
        "job1" TaskStatus.FAILURE 50 (taskKey "job1")
      = some ⟨TaskStatus.FAILURE, 50⟩ ∧
    specDropStaleUpdate
        (update_task_status (fun _ => none) "job1" TaskStatus.STARTED 100)
        "job1" TaskStatus.FAILURE 50 (taskKey "job1")
      = some ⟨TaskStatus.STARTED, 100⟩ := by
  constructor
  · simp [update_task_status]
  · simp [specDropStaleUpdate, update_task_status]

/-- C4 (amended): status writes are unconditional last-write-wins — after
any non-empty sequence of `update_task_status` calls for a job, the store
holds exactly the status and clock reading of the final call in sequence
order, with no update ever dropped by timestamp comparison. -/
theorem update_task_status_last_write_wins (store : StatusStore)
    (task_id : String) (updates : List (TaskStatus × Int)) (h : updates ≠ []) :
    applyStatusUpdates store task_id updates (taskKey task_id)
      = some ⟨(updates.getLast h).1, (updates.getLast h).2⟩ := by
  induction updates generalizing store with
  | nil => exact absurd rfl h
  | cons u us ih =>
    rcases us with _ | ⟨u2, us2⟩
    · simp [applyStatusUpdates, update_task_status]
    · have hne : (u2 :: us2) ≠ [] := by simp
      have : applyStatusUpdates store task_id (u :: u2 :: us2)
          = applyStatusUpdates
              (update_task_status store task_id u.1 u.2) task_id (u2 :: us2) := by
        simp [applyStatusUpdates]
      rw [this, ih _ hne]
      simp [List.getLast_cons]

/-- Witness for C4 (amended): two updates on an empty store, the second
with a later clock; the stored entry is the second update. -/
theorem update_task_status_last_write_wins_witness :
    applyStatusUpdates (fun _ => none) "j"
        [(TaskStatus.STARTED, 10), (TaskStatus.SUCCESS, 20)] (taskKey "j")
      = some ⟨TaskStatus.SUCCESS, 20⟩ := by
  have := update_task_status_last_write_wins (fun _ => none) "j"
    [(TaskStatus.STARTED, 10), (TaskStatus.SUCCESS, 20)] (by simp)
  simpa using this

/-- Counterexample for C6: the window filter has no upper bound at `now`.
A single record dated 100 seconds in the future of `now = 0` is counted by
`get_error_statistics` over a 1-hour window (`total_errors = 1`), while the
claim's interval `[now - window, now]` contains no record
(`specWindowCount = 0`). -/
theorem error_statistics_count_future_record :
    (get_error_statistics
        [⟨100, "e1", ErrorCategory.SYSTEM_ERROR, ErrorSeverity.LOW, "boom"⟩]
        0 1).total_errors = 1 ∧
    specWindowCount
        [⟨100, "e1", ErrorCategory.SYSTEM_ERROR, ErrorSeverity.LOW, "boom"⟩]
        0 1 = 0 := by
  decide

/-- C6 (amended): `get_error_statistics` counts exactly the records with
`timestamp >= now - window_hours` (one-sided window — future-dated records
are included), reports `error_rate_per_hour` equal to that count divided by
`max(window_hours, 1)`, and counts severities over the same one-sided
window. -/
theorem error_statistics_window_and_rate (records : List ErrorRecord)
    (now : Int) (hours : Nat) :
    (get_error_statistics records now hours).total_errors
      = records.countP (fun r => now - (hours : Int) * 3600 ≤ r.timestamp) ∧
    (get_error_statistics records now hours).error_rate_per_hour
      = (records.countP (fun r => now - (hours : Int) * 3600 ≤ r.timestamp) : Rat)
          / (max hours 1 : Nat) ∧
    (get_error_statistics records now hours).by_severity ErrorSeverity.CRITICAL
      = records.countP (fun r =>
          (now - (hours : Int) * 3600 ≤ r.timestamp) ∧
          r.severity = ErrorSeverity.CRITICAL) := by
  refine ⟨?_, ?_, ?_⟩
  · simp [get_error_statistics, List.countP_eq_length_filter]
  · simp [get_error_statistics, List.countP_eq_length_filter]
  · show ((records.filter _).filter _).length = _
    rw [← List.countP_eq_length_filter, List.countP_filter]
    apply List.countP_congr
    intro r _
    simp [and_comm]

/-- C7: the derived system health over the last hour is "unhealthy" exactly
when a critical-severity record exists in the (one-hour, one-sided) window;
otherwise "degraded" exactly when the window's total error count exceeds
the threshold 10; otherwise "healthy" — the critical check takes
precedence. -/
theorem system_health_precedence (records : List ErrorRecord) (now : Int) :
    get_system_health records now
      = (if (records.filter (fun r => now - 3600 ≤ r.timestamp)).any
             (fun r => r.severity = ErrorSeverity.CRITICAL)
         then "unhealthy"
         else if 10 < (records.filter (fun r => now - 3600 ≤ r.timestamp)).length
         then "degraded"
         else "healthy") := by
  have hw : now - ((1 : Nat) : Int) * 3600 = now - 3600 := by norm_num
  simp only [get_system_health, get_error_statistics, hw]
  rw [← List.countP_eq_length_filter]
  simp only [gt_iff_lt, List.countP_pos_iff, List.any_eq_true]

/-- C9: a history of exactly 5 samples spaced 1 minute apart (timestamps 0,
60, 120, 180, 240 with latencies 100..500 ms), summarised at `now = 240`
over a 10-minute window, reports `sample_count = 5` and an inference p95 of
480 ms.  The second conjunct checks 480 against the direct standard linear
interpolation at virtual rank `(95/100)(n-1) = 3.8`:
`v_3 + 0.8 (v_4 - v_3)`. -/
theorem performance_summary_five_samples :
    get_performance_summary
        [⟨0, 10, 20, none, none, 100, 0, 0⟩, ⟨60, 10, 20, none, none, 200, 0, 0⟩,
         ⟨120, 10, 20, none, none, 300, 0, 0⟩, ⟨180, 10, 20, none, none, 400, 0, 0⟩,
         ⟨240, 10, 20, none, none, 500, 0, 0⟩] 240 10
      = some ⟨10, 5, 10, 10, 10, 20, 20, 20, ⟨300, 500, 100, 480⟩⟩ ∧
    (400 : Rat) + ((95 : Rat) / 100 * (5 - 1) - 3) * (500 - 400) = 480 := by
  constructor
  · norm_num [get_performance_summary, listMean, listMax, listMin, npPercentile,
      sortAsc, insertSorted, List.filter, Rat.floor_def', List.getD]
    simp
    norm_num
  · norm_num

/-- C10: `get_performance_summary` excludes every zero-latency sample from
the inference statistics while still counting it in `sample_count`, for
every history and window.  First conjunct (mixed histories): prepending an
in-window sample with `inference_time_ms = 0` to any history raises
`sample_count` by exactly one yet leaves all four inference statistics
(avg, max, min, p95) identical to those of the history without it — which
could not hold if the zero entered the statistics.  Second conjunct: when
every in-window sample has `inference_time_ms = 0`, the positive-latency
sub-list is empty and every inference statistic is reported as 0, while
`sample_count` still counts all in-window samples. -/
theorem performance_summary_excludes_zero_latency :
    (∀ (history : List PerformanceMetrics) (now : Int) (window_minutes : Nat)
        (z : PerformanceMetrics) (s : PerfSummary),
        z.inference_time_ms = 0 →
        now - (window_minutes : Int) * 60 ≤ z.timestamp →
        get_performance_summary (z :: history) now window_minutes = some s →
        s.sample_count
          = (history.filter
              (fun m => now - (window_minutes : Int) * 60 ≤ m.timestamp)).length
              + 1 ∧
        ∀ s0 : PerfSummary,
          get_performance_summary history now window_minutes = some s0 →
          s.inference = s0.inference) ∧
    (∀ (history : List PerformanceMetrics) (now : Int) (window_minutes : Nat)
        (s : PerfSummary),
        get_performance_summary history now window_minutes = some s →
        (∀ m ∈ history.filter
            (fun m => now - (window_minutes : Int) * 60 ≤ m.timestamp),
            m.inference_time_ms = 0) →
        s.sample_count
          = (history.filter
              (fun m => now - (window_minutes : Int) * 60 ≤ m.timestamp)).length ∧
        s.inference = ⟨0, 0, 0, 0⟩) := by
  constructor
  · intro history now window_minutes z s hz0 hzin hs
    have hWcons : (z :: history).filter
        (fun m => now - (window_minutes : Int) * 60 ≤ m.timestamp)
        = z :: history.filter
            (fun m => now - (window_minutes : Int) * 60 ≤ m.timestamp) := by
      rw [List.filter_cons_of_pos]
      simpa using hzin
    have hposz : ((z :: history).filter
          (fun m => now - (window_minutes : Int) * 60 ≤ m.timestamp)).filter
            (fun m => 0 < m.inference_time_ms)
        = (history.filter
            (fun m => now - (window_minutes : Int) * 60 ≤ m.timestamp)).filter
              (fun m => 0 < m.inference_time_ms) := by
      rw [hWcons, List.filter_cons_of_neg]
      simp [hz0]
    simp only [get_performance_summary] at hs
    rw [hWcons] at hs
    rw [if_neg (by simp)] at hs
    have hX := Option.some.inj hs
    subst hX
    refine ⟨by simp, ?_⟩
    intro s0 hs0
    simp only [get_performance_summary] at hs0
    by_cases hemp : (history.filter
        (fun m => now - (window_minutes : Int) * 60 ≤ m.timestamp)).isEmpty = true
    · rw [if_pos hemp] at hs0
      exact Option.noConfusion hs0
    · rw [if_neg hemp] at hs0
      have hX0 := Option.some.inj hs0
      subst hX0
      rw [hWcons] at hposz
      simp only [hposz]
  · intro history now window_minutes s hs hz
    have hval : (history.filter
        (fun m => now - (window_minutes : Int) * 60 ≤ m.timestamp)).filter
          (fun m => 0 < m.inference_time_ms) = [] := by
      rw [List.filter_eq_nil_iff]
      intro m hm
      have h0 := hz m hm
      simp [h0]
    simp only [get_performance_summary] at hs
    by_cases hemp : (history.filter
        (fun m => now - (window_minutes : Int) * 60 ≤ m.timestamp)).isEmpty = true
    · rw [if_pos hemp] at hs
      exact Option.noConfusion hs
    · rw [if_neg hemp] at hs
      have hX := Option.some.inj hs
      subst hX
      refine ⟨rfl, ?_⟩
      simp only [hval]
      simp

/-- Witness for C10: a zero-latency sample prepended to a one-sample
history with latency 100 gives `sample_count = 2` while the inference
statistics stay at 100; and a two-sample all-zero history reports
`sample_count = 2` with all-zero inference statistics. -/
theorem performance_summary_excludes_zero_latency_witness :
    ((⟨10, 2, 10, 10, 10, 20, 20, 20, ⟨100, 100, 100, 100⟩⟩
        : PerfSummary).sample_count
      = (([⟨0, 10, 20, none, none, 100, 0, 0⟩] : List PerformanceMetrics).filter
          (fun m => (60 : Int) - ((10 : Nat) : Int) * 60 ≤ m.timestamp)).length
          + 1 ∧
     ∀ s0 : PerfSummary,
       get_performance_summary [⟨0, 10, 20, none, none, 100, 0, 0⟩] 60 10
         = some s0 →
       (⟨10, 2, 10, 10, 10, 20, 20, 20, ⟨100, 100, 100, 100⟩⟩
          : PerfSummary).inference = s0.inference) ∧
    ((⟨10, 2, 10, 10, 10, 20, 20, 20, ⟨0, 0, 0, 0⟩⟩
        : PerfSummary).sample_count
      = (([⟨0, 10, 20, none, none, 0, 0, 0⟩, ⟨60, 10, 20, none, none, 0, 0, 0⟩]
            : List PerformanceMetrics).filter
          (fun m => (60 : Int) - ((10 : Nat) : Int) * 60 ≤ m.timestamp)).length ∧
     (⟨10, 2, 10, 10, 10, 20, 20, 20, ⟨0, 0, 0, 0⟩⟩
        : PerfSummary).inference = ⟨0, 0, 0, 0⟩) :=
  ⟨performance_summary_excludes_zero_latency.1
      [⟨0, 10, 20, none, none, 100, 0, 0⟩] 60 10
      ⟨60, 10, 20, none, none, 0, 0, 0⟩
      ⟨10, 2, 10, 10, 10, 20, 20, 20, ⟨100, 100, 100, 100⟩⟩
      rfl (by norm_num)
      (by norm_num [get_performance_summary, listMean, listMax, listMin,
            npPercentile, sortAsc, insertSorted, List.filter, Rat.floor_def',
            List.getD]),
   performance_summary_excludes_zero_latency.2
      [⟨0, 10, 20, none, none, 0, 0, 0⟩, ⟨60, 10, 20, none, none, 0, 0, 0⟩]
      60 10 ⟨10, 2, 10, 10, 10, 20, 20, 20, ⟨0, 0, 0, 0⟩⟩
      (by norm_num [get_performance_summary, listMean, listMax, listMin,
          List.filter])
      (by norm_num [List.filter])⟩
